import Mathlib

/-!
Verification of the annual-report downloader pipeline (src/app.py).

This file is a shallow embedding of the API-only pipeline in `app.py`:
the Python functions are translated into executable Lean definitions.
Network I/O is abstracted by an explicit environment (`Env`) that maps a
request URL to the outcome the Python `requests` call would observe;
the process-wide `_BSE_MASTER` global is threaded as explicit state
(`Option Master`).  Python exceptions are modelled with `Except Unit`.
Python strings are modelled as Lean `String`; the ASCII fragments of
`str.lower`, `str.upper`, `str.strip`, `str.split`, `re` patterns used
by the source are implemented below.  Timestamps in log lines and the
megabyte figure in success log lines are elided (wall-clock time is not
modelled); a log entry is represented by its message text.
-/

/-! ## Python string primitives -/

/-- The whitespace characters recognised by Python `str.strip()` /
`str.split()` for ASCII text. -/
def isPySpace (c : Char) : Bool :=
  c = ' ' || c = '\t' || c = '\n' || c = '\x0d' || c = '\x0b' || c = '\x0c'

/-- Embeds `l.dropWhile` from both ends: Python `str.strip()` on the char list. -/
def stripChars (l : List Char) : List Char :=
  ((l.dropWhile isPySpace).reverse.dropWhile isPySpace).reverse

/-- Python `s.strip()`. -/
def pyStrip (s : String) : String := ⟨stripChars s.data⟩

/-- Python `s.lower()` (ASCII range, which is all the source ever feeds it). -/
def pyLower (s : String) : String := ⟨s.data.map Char.toLower⟩

/-- Python `s.upper()` (ASCII range). -/
def pyUpper (s : String) : String := ⟨s.data.map Char.toUpper⟩

/-- One step of Python `str.split()`: take the next whitespace-separated word. -/
def splitWsF : Nat → List Char → List (List Char)
  | 0, _ => []
  | _ + 1, [] => []
  | fuel + 1, c :: rest =>
    if isPySpace c then splitWsF fuel rest
    else
      let w := (c :: rest).takeWhile (fun d => !isPySpace d)
      w :: splitWsF fuel ((c :: rest).dropWhile (fun d => !isPySpace d))

/-- Python `s.split()` (no argument: split on runs of whitespace,
dropping empty pieces). -/
def pySplitWs (s : String) : List String :=
  (splitWsF s.data.length s.data).map (fun w => ⟨w⟩)

/-- Python `p in s` restricted to a prefix position: `List.isPrefixOf`. -/
def pyStartsWith (p s : String) : Bool := p.data.isPrefixOf s.data

/-- Python `s.endswith(p)`. -/
def pyEndsWith (p s : String) : Bool := p.data.isSuffixOf s.data

/-- Contiguous-substring test on char lists (Python `needle in hay`). -/
def subIn (needle : List Char) : List Char → Bool
  | [] => needle.isEmpty
  | c :: rest => needle.isPrefixOf (c :: rest) || subIn needle rest

/-- Python `needle in hay` for strings. -/
def pyIn (needle hay : String) : Bool := subIn needle.data hay.data

/-- Python `" ".join(xs)`-style joining used by the report locator. -/
def joinSp : List String → String
  | [] => ""
  | [x] => x
  | x :: y :: t => x ++ " " ++ joinSp (y :: t)

/-- Python `requests.utils.quote` on ASCII input (default `safe='/'`). -/
def pyQuoteChar (c : Char) : String :=
  if c.isAlphanum || c = '_' || c = '.' || c = '-' || c = '~' || c = '/' then
    ⟨[c]⟩
  else
    let hx := Nat.toDigits 16 c.toNat
    let hx2 := if hx.length = 1 then '0' :: hx else hx
    "%" ++ ⟨hx2.map fun d => d.toUpper⟩

/-- Python `requests.utils.quote(s)`. -/
def pyQuote (s : String) : String := String.join (s.data.map pyQuoteChar)

/-! ### Lemmas about the substring test -/

theorem isPrefixOf_exists {a h : List Char} (hp : a.isPrefixOf h = true) :
    ∃ t, h = a ++ t := by
  induction a generalizing h with
  | nil => exact ⟨h, rfl⟩
  | cons x xs ih =>
    cases h with
    | nil => simp [List.isPrefixOf] at hp
    | cons y ys =>
      simp only [List.isPrefixOf, Bool.and_eq_true, beq_iff_eq] at hp
      obtain ⟨t, ht⟩ := ih hp.2
      exact ⟨t, by simp [hp.1, ht]⟩

theorem isPrefixOf_append_self (a t : List Char) :
    a.isPrefixOf (a ++ t) = true := by
  induction a with
  | nil => simp [List.isPrefixOf]
  | cons x xs ih => simp [List.isPrefixOf, ih]

theorem isPrefixOf_append_ext {a h : List Char} (t : List Char)
    (hp : a.isPrefixOf h = true) : a.isPrefixOf (h ++ t) = true := by
  obtain ⟨u, hu⟩ := isPrefixOf_exists hp
  subst hu
  rw [List.append_assoc]
  exact isPrefixOf_append_self a (u ++ t)

theorem subIn_of_isPrefixOf {a h : List Char} (hp : a.isPrefixOf h = true) :
    subIn a h = true := by
  cases h with
  | nil =>
    cases a with
    | nil => simp [subIn, List.isEmpty]
    | cons x xs => simp [List.isPrefixOf] at hp
  | cons c rest => simp [subIn, hp]

theorem subIn_self (a : List Char) : subIn a a = true := by
  have := isPrefixOf_append_self a []
  rw [List.append_nil] at this
  exact subIn_of_isPrefixOf this

theorem subIn_cons {a h : List Char} (c : Char) (hs : subIn a h = true) :
    subIn a (c :: h) = true := by
  simp [subIn, hs]

theorem subIn_append_left {a h : List Char} (g : List Char)
    (hs : subIn a h = true) : subIn a (g ++ h) = true := by
  induction g with
  | nil => simpa using hs
  | cons c g ih => simpa using subIn_cons c ih

theorem subIn_append_right {a h : List Char} (t : List Char)
    (hs : subIn a h = true) : subIn a (h ++ t) = true := by
  induction h with
  | nil =>
    cases a with
    | cons x xs => simp [subIn, List.isEmpty] at hs
    | nil =>
      cases t with
      | nil => simp [subIn, List.isEmpty]
      | cons c r => simp [subIn, List.isPrefixOf]
  | cons c rest ih =>
    simp only [subIn, Bool.or_eq_true] at hs
    cases hs with
    | inl hp =>
      have : a.isPrefixOf ((c :: rest) ++ t) = true := isPrefixOf_append_ext t hp
      simpa [subIn] using Or.inl this
    | inr hr =>
      have := ih hr
      simpa [subIn] using Or.inr this

theorem subIn_exists {a h : List Char} (hs : subIn a h = true) :
    ∃ p t, h = p ++ a ++ t := by
  induction h with
  | nil =>
    cases a with
    | cons x xs => simp [subIn, List.isEmpty] at hs
    | nil => exact ⟨[], [], by simp⟩
  | cons c rest ih =>
    simp only [subIn, Bool.or_eq_true] at hs
    cases hs with
    | inl hp =>
      obtain ⟨t, ht⟩ := isPrefixOf_exists hp
      exact ⟨[], t, by simp [ht]⟩
    | inr hr =>
      obtain ⟨p, t, hpt⟩ := ih hr
      exact ⟨c :: p, t, by simp [hpt]⟩

theorem subIn_trans {a b c : List Char} (hab : subIn a b = true)
    (hbc : subIn b c = true) : subIn a c = true := by
  obtain ⟨p, t, hpt⟩ := subIn_exists hbc
  subst hpt
  have h1 : subIn a (b ++ t) = true := subIn_append_right t hab
  have h2 : subIn a (p ++ (b ++ t)) = true := subIn_append_left p h1
  simpa [List.append_assoc] using h2

theorem mem_of_subIn {a h : List Char} {c : Char} (hs : subIn a h = true)
    (hc : c ∈ a) : c ∈ h := by
  obtain ⟨p, t, hpt⟩ := subIn_exists hs
  subst hpt
  simp [hc]

theorem mem_dropWhile_of_not {c : Char} {p : Char → Bool} {l : List Char}
    (hm : c ∈ l) (hp : p c = false) : c ∈ l.dropWhile p := by
  induction l with
  | nil => cases hm
  | cons x xs ih =>
    by_cases hx : p x = true
    · rw [List.dropWhile_cons_of_pos hx]
      cases hm with
      | head => rw [hx] at hp; cases hp
      | tail _ hm => exact ih hm
    · rw [List.dropWhile_cons_of_neg (by simpa using hx)]
      exact hm

theorem mem_stripChars_of_not_space {c : Char} {l : List Char}
    (hm : c ∈ l) (hc : isPySpace c = false) : c ∈ stripChars l := by
  unfold stripChars
  have h1 : c ∈ l.dropWhile isPySpace := mem_dropWhile_of_not hm hc
  have h2 : c ∈ (l.dropWhile isPySpace).reverse := by simpa using h1
  have h3 : c ∈ (l.dropWhile isPySpace).reverse.dropWhile isPySpace :=
    mem_dropWhile_of_not h2 hc
  simpa using h3

theorem sdata_append (s t : String) : (s ++ t).data = s.data ++ t.data := by
  cases s with
  | mk a => cases t with
    | mk b => rfl

theorem subIn_joinSp {x : String} {xs : List String} (hx : x ∈ xs) :
    subIn x.data (joinSp xs).data = true := by
  induction xs with
  | nil => cases hx
  | cons y t ih =>
    cases t with
    | nil =>
      cases hx with
      | head => exact subIn_self x.data
      | tail _ hm => cases hm
    | cons z t2 =>
      cases hx with
      | head =>
        show subIn x.data (x ++ " " ++ joinSp (z :: t2)).data = true
        have h1 : (x ++ " " ++ joinSp (z :: t2)).data
            = x.data ++ (" ".data ++ (joinSp (z :: t2)).data) := by
          rw [sdata_append, sdata_append, List.append_assoc]
        rw [h1]
        exact subIn_append_right _ (subIn_self x.data)
      | tail _ hm =>
        have hrec := ih hm
        show subIn x.data (y ++ " " ++ joinSp (z :: t2)).data = true
        have h1 : (y ++ " " ++ joinSp (z :: t2)).data
            = (y.data ++ " ".data) ++ (joinSp (z :: t2)).data := by
          rw [sdata_append, sdata_append]
        rw [h1]
        exact subIn_append_left _ hrec

/-! ## JSON values, Python truthiness, and `.get(...) or ...` chains -/

/-- Parsed JSON values as Python sees them after `r.json()`. -/
inductive JVal where
  | str (s : String)
  | num (n : Int)
  | bool (b : Bool)
  | null
  | arr (l : List JVal)
  | obj (l : List (String × JVal))

/-- Python truthiness of a JSON value. -/
def jTruthy : JVal → Bool
  | .str s => !s.isEmpty
  | .num n => n != 0
  | .bool b => b
  | .null => false
  | .arr l => !l.isEmpty
  | .obj l => !l.isEmpty

mutual

/-- Python `str(v)` for a JSON value (nested containers are rendered with
`repr` of their elements, as Python does). -/
def pyStr : JVal → String
  | .str s => s
  | .num n => toString n
  | .bool b => if b then "True" else "False"
  | .null => "None"
  | .arr l => "[" ++ pyReprList l ++ "]"
  | .obj l => "\x7b" ++ pyReprObj l ++ "\x7d"

/-- Python `repr(v)` for a JSON value (string escapes inside nested
containers are not reproduced; only the overall shape matters here). -/
def pyRepr : JVal → String
  | .str s => "\x27" ++ s ++ "\x27"
  | .num n => toString n
  | .bool b => if b then "True" else "False"
  | .null => "None"
  | .arr l => "[" ++ pyReprList l ++ "]"
  | .obj l => "\x7b" ++ pyReprObj l ++ "\x7d"

/-- Comma-separated `repr` rendering of a list (Python `str(list)` body). -/
def pyReprList : List JVal → String
  | [] => ""
  | [x] => pyRepr x
  | x :: y :: t => pyRepr x ++ ", " ++ pyReprList (y :: t)

/-- Comma-separated rendering of a dict body (Python `str(dict)` body). -/
def pyReprObj : List (String × JVal) → String
  | [] => ""
  | [(k, v)] => "\x27" ++ k ++ "\x27: " ++ pyRepr v
  | (k, v) :: y :: t => "\x27" ++ k ++ "\x27: " ++ pyRepr v ++ ", " ++ pyReprObj (y :: t)

end

/-- Python `item.get(key)` on a JSON object (dicts keep insertion order;
keys are unique, so association-list lookup is dict lookup). -/
def objGet (o : List (String × JVal)) (k : String) : Option JVal :=
  List.lookup k o

/-- Python `item.get(k1) or item.get(k2) or ... or default`: the first
*truthy* value wins, absent or falsy values fall through. -/
def getChain (o : List (String × JVal)) : List String → JVal → JVal
  | [], d => d
  | k :: t, d =>
    match objGet o k with
    | some v => if jTruthy v then v else getChain o t d
    | none => getChain o t d

/-- Python `row.get(k1) or row.get(k2) or ""` on a CSV `DictReader` row
(string values; the first non-empty value wins). -/
def sGetChain (row : List (String × String)) : List String → String → String
  | [], d => d
  | k :: t, d =>
    match List.lookup k row with
    | some v => if v.isEmpty then sGetChain row t d else v
    | none => sGetChain row t d

/-! ## The network environment and the document fetcher -/

/-- Transport outcome of one `requests.get` for a document body:
either a raised transport exception, or a response with an HTTP
status code and a byte payload. -/
inductive HttpOut where
  | err
  | resp (status : Nat) (content : List Nat)

/-- Embeds `requests.raise_for_status` raises exactly for 4xx / 5xx codes. -/
def isHttpError (status : Nat) : Bool := 400 ≤ status && status < 600

/-- One CSV download outcome: HTTP status, whether a comma occurs in the
first 100 characters of the body, and the rows `csv.DictReader` yields. -/
structure CsvResp where
  status : Nat
  hasCommaEarly : Bool
  rows : List (List (String × String))

/-- The ambient network: what each URL returns.  `fetchJson` is the value
of the `fetch_json` helper of the source (already `None` on any transport error,
non-2xx status, or JSON parse failure); `fetchBytes` is the raw transport
outcome consumed by `fetch_bytes`; `headStatus` is the status of a HEAD
probe (`none` = the probe raised); `csv` is the equity-master CSV download.
Request headers and session cookies select server behaviour and are folded
into the environment. -/
structure Env where
  fetchJson : String → Option JVal
  fetchBytes : String → HttpOut
  headStatus : String → Option Nat
  csv : Option CsvResp

/-- Embeds `fetch_json(url, headers, session)` from app.py: the environment already
captures its try/raise_for_status/r.json() composite outcome. -/
def fetch_json (env : Env) (url : String) : Option JVal := env.fetchJson url

/-- Embeds `fetch_bytes(url, headers)` from app.py: download the document body,
treat transport errors, 4xx/5xx statuses (via `raise_for_status`) and
payloads under 1000 bytes (a disguised error page) as failure. -/
def fetch_bytes (env : Env) (url : String) : Option (List Nat) :=
  match env.fetchBytes url with
  | .err => none
  | .resp status content =>
    if isHttpError status then none
    else if content.length < 1000 then none
    else some content

/-! ## `sanitize` and the regex fragments used by the source -/

/-- The character class that `sanitize` replaces by underscore. -/
def isUnsafeChar (c : Char) : Bool :=
  c = '<' || c = '>' || c = ':' || c = '"' || c = '/' || c = '\\' ||
  c = '|' || c = '?' || c = '*'

/-- One character of the substitution in `sanitize`. -/
def sanChar (c : Char) : Char := if isUnsafeChar c then '_' else c

/-- Embeds `sanitize(name)` from app.py: replace filesystem-unsafe characters by
underscore, then `str.strip()`. -/
def sanitize (name : String) : String := pyStrip ⟨name.data.map sanChar⟩

/-- Embeds `re.fullmatch(r"\d{6}", s)`: exactly six ASCII digits. -/
def isSixDigits (s : String) : Bool :=
  s.data.length == 6 && s.data.all Char.isDigit

/-- Helper for `re.search(r"/(\d{6})/", query)`: at the head of `cs` (just
after a `/`), do exactly six digits followed by `/` appear? -/
def sixDigitsSlashed (cs : List Char) : Option (List Char) :=
  let ds := cs.take 6
  if ds.length == 6 && ds.all Char.isDigit && (cs.drop 6).head? == some '/' then
    some ds
  else
    none

/-- Embeds `re.search(r"/(\d{6})/", query)`: first `/dddddd/` occurrence, returning
the captured digit group. -/
def extractSlashCode : List Char → Option (List Char)
  | [] => none
  | c :: rest =>
    if c = '/' then
      match sixDigitsSlashed rest with
      | some ds => some ds
      | none => extractSlashCode rest
    else extractSlashCode rest

/-- One hex digit of `re.match(r"[0-9a-f]...", pdf, re.I)`. -/
def isHexChar (c : Char) : Bool :=
  c.isDigit || ('a' ≤ c && c ≤ 'f') || ('A' ≤ c && c ≤ 'F')

/-- A run of `n` hex chars followed by the rest (for the GUID pattern). -/
def hexRun (n : Nat) (cs : List Char) : Option (List Char) :=
  if (cs.take n).length == n && (cs.take n).all isHexChar then
    some (cs.drop n)
  else
    none

/-- Embeds `re.match` of the BSE GUID filename pattern
`[0-9a-f]{8}-[0-9a-f]{4}-[0-9a-f]{4}-[0-9a-f]{4}-[0-9a-f]{12}` (prefix
match, case-insensitive). -/
def isGuidName (s : String) : Bool :=
  let step (n : Nat) (cs : Option (List Char)) : Option (List Char) :=
    match cs with
    | none => none
    | some l =>
      match hexRun n l with
      | some ('-' :: rest) => some rest
      | _ => none
  match step 4 (step 4 (step 4 (step 8 (some s.data)))) with
  | none => false
  | some l => (hexRun 12 l).isSome

/-- Length consumed at the current position by the first matching
alternative of the corporate-suffix pattern
`(ltd\.?|limited|inc\.?|corp\.?|pvt\.?|llp|industries|company|enterprises|solutions)`
(alternatives tried left to right; `\.?` greedily takes a following dot).
The pattern is applied to an already lower-cased string, so `re.I` is
inert. -/
def suffixAltLen (cs : List Char) : Option Nat :=
  let dotted (w : List Char) : Option Nat :=
    if w.isPrefixOf cs then
      some (if (cs.drop w.length).head? = some '.' then w.length + 1 else w.length)
    else none
  let plain (w : List Char) : Option Nat :=
    if w.isPrefixOf cs then some w.length else none
  (dotted "ltd".data).orElse fun _ =>
  (plain "limited".data).orElse fun _ =>
  (dotted "inc".data).orElse fun _ =>
  (dotted "corp".data).orElse fun _ =>
  (dotted "pvt".data).orElse fun _ =>
  (plain "llp".data).orElse fun _ =>
  (plain "industries".data).orElse fun _ =>
  (plain "company".data).orElse fun _ =>
  (plain "enterprises".data).orElse fun _ =>
  (plain "solutions".data).orElse fun _ => none

/-- Embeds `re.sub` scan over the string: at each position, remove the first
matching suffix alternative and continue after it, else keep the
character.  Fuel is the string length (each step consumes at least one
character). -/
def subAltsF : Nat → List Char → List Char
  | 0, cs => cs
  | _ + 1, [] => []
  | fuel + 1, c :: rest =>
    match suffixAltLen (c :: rest) with
    | some n => subAltsF fuel (List.drop n (c :: rest))
    | none => c :: subAltsF fuel rest

/-- Embeds `re.sub(r"(ltd\.?|limited|...)", "", s, flags=re.I)` from
`_search_bse_master`. -/
def subSuffixTokens (s : String) : String := ⟨subAltsF s.data.length s.data⟩

/-! ## The BSE equity-master dict -/

/-- The `_BSE_MASTER` dict: keys are lower-cased names and upper-cased
ISINs, values are `(scrip_code, name)` pairs.  Modelled as an
insertion-ordered association list with unique keys. -/
abbrev Master := List (String × String × String)

/-- Python dict assignment `d[k] = v`: overwrite in place, else append. -/
def dinsert (m : Master) (k : String) (v : String × String) : Master :=
  match m with
  | [] => [(k, v)]
  | (k1, v1) :: t => if k1 = k then (k, v) :: t else (k1, v1) :: dinsert t k v

/-- Stable sort by key length (`matches.sort(key=lambda x: len(x[0]))`):
insertion sort placing each element before strictly longer keys, so
original order is kept among equal lengths. -/
def sinsertLen (x : String × String × String) :
    List (String × String × String) → List (String × String × String)
  | [] => [x]
  | y :: t => if y.1.length < x.1.length then y :: sinsertLen x t else x :: y :: t

/-- The sorted list (stable, ascending key length). -/
def sortByLen : List (String × String × String) → List (String × String × String)
  | [] => []
  | x :: t => sinsertLen x (sortByLen t)

/-! ## BSE identifier resolver (app.py lines 103-307) -/

/-- Python `x or y` on JSON values: the left operand if truthy, else the right. -/
def jOr (x y : JVal) : JVal := if jTruthy x then x else y

/-- A `dict.get(k)` result as a value (`None` when the key is absent). -/
def jOfOpt (o : Option JVal) : JVal := o.getD .null

def bseCsvUrl : String :=
  "https://www.bseindia.com/downloads/BseIndiaAPI/ListofScrips.csv"

def bseJsonMasterUrl : String :=
  "https://api.bseindia.com/BseIndiaAPI/api/ListofScripData/w?segment=equity&status=Active"

/-- The warm-up GETs of `bse_make_session` (responses are ignored and any
exception is swallowed; only the network traffic is observable). -/
def bseSessionUrls : List String :=
  ["https://www.bseindia.com",
   "https://www.bseindia.com/markets/equity/EQReports/MarketWatch.aspx"]

/-- The warm-up GET of `nse_make_session`. -/
def nseSessionUrls : List String := ["https://www.nseindia.com"]

/-- Embeds `_bse_extract_code_name(item, query)`: read the scrip code and name
through the ordered alias lists; `(None, None)` when no code was found. -/
def bse_extract_code_name (item : List (String × JVal)) (query : String) :
    Option (String × String) :=
  let code := pyStrip (pyStr (getChain item
    ["SCRIP_CD", "SECURITY_CODE", "scripcode", "Scrip_Code",
     "scrip_cd", "Scripcode", "ScripCode"] (.str "")))
  let name := getChain item
    ["Scrip_Name", "SECURITY_NAME", "Issuer_Name", "long_name",
     "SCRIP_NAME", "scrip_name", "ScripName"] (.str query)
  if code.isEmpty then none else some (code, pyStr name)

/-- The CSV row loop of `_load_bse_master`: insert each row keyed by
lower-cased name and (when present) upper-cased ISIN. -/
def parseCsvRows : List (List (String × String)) → Master → Master
  | [], m => m
  | row :: t, m =>
    let code := pyStrip (sGetChain row ["Security Code", "Scrip Code"] "")
    let name := pyStrip (sGetChain row ["Security Name", "Scrip Name"] "")
    let isin := pyStrip (sGetChain row ["ISIN No", "ISIN"] "")
    let m1 :=
      if !code.isEmpty && !name.isEmpty then
        let m2 := dinsert m (pyLower name) (code, name)
        if !isin.isEmpty then dinsert m2 (pyUpper isin) (code, name) else m2
      else m
    parseCsvRows t m1

/-- The JSON item loop of the `_load_bse_master` fallback.  A non-dict item
raises inside the loop (caught by the enclosing try), keeping the entries
inserted so far; the boolean reports whether the loop completed. -/
def parseJsonItems : List JVal → Master → Master × Bool
  | [], m => (m, true)
  | .obj o :: t, m =>
    let isin := pyStrip (pyStr (getChain o
      ["ISIN_NUMBER", "isin_code", "ISIN_CODE", "isin"] (.str "")))
    let m1 :=
      match bse_extract_code_name o "" with
      | some (code, name) =>
        if !code.isEmpty && !name.isEmpty then
          let m2 := dinsert m (pyLower name) (code, name)
          if !isin.isEmpty then dinsert m2 (pyUpper isin) (code, name) else m2
        else m
      | none => m
    parseJsonItems t m1
  | _ :: _, m => (m, false)

/-- The JSON fallback half of `_load_bse_master` (runs when the CSV path
did not return): warm a session, fetch the scrip-data endpoint, and parse
a non-empty JSON list; any failure leaves the dict as it stands. -/
def loadJsonFallback (env : Env) (logs0 net0 : List String) :
    Master × Option Master × List String × List String :=
  let net1 := net0 ++ bseSessionUrls ++ [bseJsonMasterUrl]
  match env.fetchJson bseJsonMasterUrl with
  | some (.arr (x :: xs)) =>
    match x with
    | .obj o1 =>
      let keysLog := "[BSE-DEBUG] Master JSON keys: " ++ joinSp (o1.map fun kv => kv.1)
      let p := parseJsonItems (JVal.obj o1 :: xs) []
      if p.2 then
        (p.1, some p.1,
          logs0 ++ [keysLog,
            "[BSE] Master loaded: " ++ toString p.1.length ++ " entries from JSON"],
          net1)
      else
        (p.1, some p.1, logs0 ++ [keysLog, "[BSE-DEBUG] JSON master failed"], net1)
    | _ =>
      -- `list(data[0].keys())` raises on a non-dict element; caught
      ([], some [], logs0 ++ ["[BSE-DEBUG] JSON master failed"], net1)
  | _ => ([], some [], logs0, net1)

/-- Embeds `_load_bse_master(logs)`: return the cached dict when the global is
already set; otherwise set it to an empty dict and populate it from the
CSV bulk download, falling back to the JSON endpoint.
Result: (returned dict, new cache state, emitted logs, requested URLs). -/
def load_bse_master (env : Env) (cache : Option Master) :
    Master × Option Master × List String × List String :=
  match cache with
  | some m => (m, some m, [], [])
  | none =>
    let logs0 := ["[BSE] Loading equity master list..."]
    match env.csv with
    | some r =>
      if r.status == 200 && r.hasCommaEarly then
        let m := parseCsvRows r.rows []
        (m, some m,
          logs0 ++ ["[BSE] Master loaded: " ++ toString m.length ++ " entries from CSV"],
          [bseCsvUrl])
      else
        loadJsonFallback env logs0 [bseCsvUrl]
    | none =>
      loadJsonFallback env (logs0 ++ ["[BSE-DEBUG] CSV load failed"]) [bseCsvUrl]

/-- Embeds `_search_bse_master(query, logs)`: exact ISIN key, exact lower-cased
name key, substring match after corporate-suffix stripping
(shortest-key-first), then a first-word key-prefix match of length ≥ 3.
`Except.error` models the uncaught `IndexError` of
`(stripped or q_lower).split()[0]` on a whitespace-only query. -/
def search_bse_master (env : Env) (query : String) (cache : Option Master) :
    Except Unit (Option (String × String)) × Option Master × List String × List String :=
  let L := load_bse_master env cache
  let master := L.1
  let cache1 := L.2.1
  let logsL := L.2.2.1
  let netL := L.2.2.2
  if master.isEmpty then (.ok none, cache1, logsL, netL)
  else
    let q := pyUpper (pyStrip query)
    match List.lookup q master with
    | some v => (.ok (some v), cache1, logsL, netL)
    | none =>
      let qlow := pyLower (pyStrip query)
      match List.lookup qlow master with
      | some v => (.ok (some v), cache1, logsL, netL)
      | none =>
        let stripped := pyStrip (subSuffixTokens qlow)
        let ms := master.filter fun kv =>
          decide (4 < kv.1.length) &&
          (pyIn stripped kv.1 || pyIn qlow kv.1) &&
          !pyStartsWith "IN" kv.1
        if !ms.isEmpty then
          match sortByLen ms with
          | (bk, bv) :: _ =>
            (.ok (some bv), cache1, logsL ++ ["[BSE] Master match: " ++ bk], netL)
          | [] => (.ok none, cache1, logsL, netL)
        else
          let base := if stripped.isEmpty then qlow else stripped
          match pySplitWs base with
          | [] => (.error (), cache1, logsL, netL)
          | w :: _ =>
            if 3 ≤ w.length then
              let ss := master.filter fun kv =>
                pyStartsWith w kv.1 && !pyStartsWith "IN" kv.1
              if !ss.isEmpty then
                match sortByLen ss with
                | (bk, bv) :: _ =>
                  (.ok (some bv), cache1,
                    logsL ++ ["[BSE] Master key match: " ++ bk], netL)
                | [] => (.ok none, cache1, logsL, netL)
              else (.ok none, cache1, logsL, netL)
            else (.ok none, cache1, logsL, netL)

/-- Embeds `info.get(k1, \x7b\x7d).get(k2)`: `None` when the outer key is absent,
an `AttributeError` when the outer value is not a dict. -/
def jGetNested (io : List (String × JVal)) (k1 k2 : String) :
    Except Unit (Option JVal) :=
  match objGet io k1 with
  | none => .ok none
  | some (.obj o2) => .ok (objGet o2 k2)
  | some _ => .error ()

/-- The lazily-evaluated `or` chain reading the ISIN out of a quote-equity
response (`metadata.isin or info.isin or securityInfo.isin or ""`). -/
def isinChain (io : List (String × JVal)) : Except Unit JVal :=
  match jGetNested io "metadata" "isin" with
  | .error _ => .error ()
  | .ok a =>
    if jTruthy (jOfOpt a) then .ok (jOfOpt a)
    else
      match jGetNested io "info" "isin" with
      | .error _ => .error ()
      | .ok b =>
        if jTruthy (jOfOpt b) then .ok (jOfOpt b)
        else
          match jGetNested io "securityInfo" "isin" with
          | .error _ => .error ()
          | .ok c =>
            if jTruthy (jOfOpt c) then .ok (jOfOpt c) else .ok (.str "")

/-- The company-name `or` chain of the cross-lookup
(`info.companyName or metadata.companyName or symbol`). -/
def coNameChain (io : List (String × JVal)) (symbol : JVal) : Except Unit JVal :=
  match jGetNested io "info" "companyName" with
  | .error _ => .error ()
  | .ok a =>
    if jTruthy (jOfOpt a) then .ok (jOfOpt a)
    else
      match jGetNested io "metadata" "companyName" with
      | .error _ => .error ()
      | .ok b =>
        if jTruthy (jOfOpt b) then .ok (jOfOpt b) else .ok symbol

/-- The per-hit loop of the NSE cross-lookup (strategy 2), over the first
five autocomplete results: fetch `quote-equity`, read the ISIN, and look
it up in the already-loaded master.  Result, emitted logs, requested URLs. -/
def s2Loop (env : Env) (m : Master) :
    List JVal → Except Unit (Option (String × String)) × List String × List String
  | [] => (.ok none, [], [])
  | hit :: rest =>
    match hit with
    | .obj o =>
      let symV := getChain o ["symbol"] (.str "")
      if !jTruthy symV then s2Loop env m rest
      else
        match symV with
        | .str s =>
          let infoUrl := "https://www.nseindia.com/api/quote-equity?symbol=" ++ pyQuote s
          match env.fetchJson infoUrl with
          | some (.obj io) =>
            match isinChain io with
            | .error _ => (.error (), [], [infoUrl])
            | .ok isin =>
              match coNameChain io symV with
              | .error _ => (.error (), [], [infoUrl])
              | .ok coName =>
                let logH := "[BSE] NSE hit: " ++ pyStr coName ++ " | ISIN: " ++ pyStr isin
                if jTruthy isin && !m.isEmpty then
                  match isin with
                  | .str is2 =>
                    match List.lookup (pyUpper is2) m with
                    | some (c, n) =>
                      (.ok (some (c, n)),
                        [logH, "[BSE] ✅ Resolved via ISIN " ++ is2 ++ ": "
                          ++ n ++ " (" ++ c ++ ")"],
                        [infoUrl])
                    | none =>
                      let r := s2Loop env m rest
                      (r.1, logH :: r.2.1, infoUrl :: r.2.2)
                  | _ => (.error (), [logH], [infoUrl])
                else
                  let r := s2Loop env m rest
                  (r.1, logH :: r.2.1, infoUrl :: r.2.2)
          | _ =>
            let r := s2Loop env m rest
            (r.1, r.2.1, infoUrl :: r.2.2)
        | _ => (.error (), [], [])
    | _ => (.error (), [], [])

def bseAutoUrl (kw : String) : String :=
  "https://www.nseindia.com/api/search/autocomplete?q=" ++ pyQuote kw

/-- The whole `try` block of strategy 2 in `bse_search_company`: NSE
autocomplete on the first word of the query, pre-load of the BSE master,
then the per-hit ISIN cross-lookup.  `Except.error` is any exception
raised inside the block (all are caught by the caller):
`query.split()[0]` on a whitespace-only query, attribute/type errors on
unexpectedly-shaped JSON. -/
def bseStrategy2 (env : Env) (query : String) (cache : Option Master) :
    Except Unit (Option (String × String)) × Option Master × List String × List String :=
  match pySplitWs query with
  | [] => (.error (), cache, [], [])
  | keyword :: _ =>
    let net0 := nseSessionUrls ++ [bseAutoUrl keyword]
    let resultsJ : JVal :=
      match env.fetchJson (bseAutoUrl keyword) with
      | some (.arr l) => .arr l
      | some (.obj o) =>
        jOr (jOfOpt (objGet o "symbols")) (jOr (jOfOpt (objGet o "data")) (.arr []))
      | _ => .arr []
    let L := load_bse_master env cache
    match resultsJ with
    | .arr l =>
      let r := s2Loop env L.1 (l.take 5)
      (r.1, L.2.1, L.2.2.1 ++ r.2.1, net0 ++ L.2.2.2 ++ r.2.2)
    | _ =>
      -- slicing / iterating a truthy non-list value raises (only truthy
      -- non-list values can reach this arm)
      (.error (), L.2.1, L.2.2.1, net0 ++ L.2.2.2)

/-- The canonical direct-parse pattern of strategy 1 in
`bse_search_company`: a BSE portal URL embedding `/dddddd/`, else a bare
six-digit scrip code (after stripping). -/
def bseDirectCode (q : String) : Option String :=
  match (if pyIn "bseindia.com" q then extractSlashCode q.data else none) with
  | some ds => some ⟨ds⟩
  | none => if isSixDigits (pyStrip q) then some (pyStrip q) else none

def bseNotFoundLogs : List String :=
  ["[BSE] ❌ Not found.",
   "[BSE] 💡 Enter the 6-digit scrip code directly (BEL = 500049)"]

/-- Strategy 3 plus the shared not-found tail of `bse_search_company`. -/
def bseStrategy3 (env : Env) (query : String) (cache : Option Master)
    (logs0 net0 : List String) :
    Except Unit (Option (String × String)) × Option Master × List String × List String :=
  let S3 := search_bse_master env query cache
  match S3.1 with
  | .error _ => (.error (), S3.2.1, logs0 ++ S3.2.2.1, net0 ++ S3.2.2.2)
  | .ok (some (c, n)) =>
    if !c.isEmpty then
      (.ok (some (c, n)), S3.2.1,
        logs0 ++ S3.2.2.1 ++ ["[BSE] Found via master: " ++ n ++ " (" ++ c ++ ")"],
        net0 ++ S3.2.2.2)
    else
      (.ok none, S3.2.1, logs0 ++ S3.2.2.1 ++ bseNotFoundLogs, net0 ++ S3.2.2.2)
  | .ok none =>
    (.ok none, S3.2.1, logs0 ++ S3.2.2.1 ++ bseNotFoundLogs, net0 ++ S3.2.2.2)

/-- Embeds `bse_search_company(query, logs)`: strategy 1 (direct code / URL),
strategy 2 (NSE cross-lookup, inside try/except), strategy 3 (master
fuzzy search, *not* guarded by any try/except). -/
def bse_search_company (env : Env) (query : String) (cache : Option Master) :
    Except Unit (Option (String × String)) × Option Master × List String × List String :=
  match (if pyIn "bseindia.com" query then extractSlashCode query.data else none) with
  | some ds => (.ok (some (⟨ds⟩, query)), cache, [], [])
  | none =>
    if isSixDigits (pyStrip query) then
      (.ok (some (pyStrip query, pyStrip query)), cache, [], [])
    else
      let logs0 := ["[BSE] Searching: " ++ query]
      let S2 := bseStrategy2 env query cache
      match S2.1 with
      | .ok (some r) => (.ok (some r), S2.2.1, logs0 ++ S2.2.2.1, S2.2.2.2)
      | .ok none =>
        bseStrategy3 env query S2.2.1 (logs0 ++ S2.2.2.1) S2.2.2.2
      | .error _ =>
        bseStrategy3 env query S2.2.1
          (logs0 ++ S2.2.2.1 ++ ["[BSE-DEBUG] NSE cross-lookup error"]) S2.2.2.2

/-! ## BSE report locator (app.py lines 310-423) -/

def bseRepUrl1 (c : String) : String :=
  "https://api.bseindia.com/BseIndiaAPI/api/AnnualReport/w?scripcode=" ++ c

def bseRepUrl2 (c : String) : String :=
  "https://api.bseindia.com/BseIndiaAPI/api/AnnRptList/w?scripcode=" ++ c ++ "&type=C"

def bseRepUrl3 (c : String) : String :=
  "https://api.bseindia.com/BseIndiaAPI/api/AnnualReportNew/w?scripcode=" ++ c

/-- The endpoint loop of `bse_get_report_url`: accept the first response
that is a non-empty list, or a dict whose known container field unwraps
to something truthy; otherwise reset to `None` and try the next URL. -/
def bseEndpointLoop (env : Env) : List String → Option JVal × List String × List String
  | [] => (none, [], [])
  | url :: rest =>
    match env.fetchJson url with
    | some (.arr (x :: xs)) =>
      (some (.arr (x :: xs)), ["[BSE-DEBUG] Report endpoint worked"], [url])
    | some (.obj o) =>
      let d := jOr (jOfOpt (objGet o "Table"))
        (jOr (jOfOpt (objGet o "data"))
          (jOr (jOfOpt (objGet o "AnnualReportList"))
            (jOr (jOfOpt (objGet o "reports")) (.arr []))))
      if jTruthy d then (some d, ["[BSE-DEBUG] Unwrapped dict from endpoint"], [url])
      else
        let r := bseEndpointLoop env rest
        (r.1, r.2.1, url :: r.2.2)
    | _ =>
      let r := bseEndpointLoop env rest
      (r.1, r.2.1, url :: r.2.2)

/-- The period-alias chain used by the record scan of `bse_get_report_url`. -/
def bsePeriodKeys : List String :=
  ["year", "PERIOD", "YEAR", "TO_PERIOD", "toDate", "FromDate"]

/-- The file-name alias chain of `bse_get_report_url`. -/
def bsePdfKeys : List String :=
  ["file_name", "FILENAME", "fileName", "PDFNAME", "DOCUMENT_NAME",
   "PDF_LINK", "ATTACHMENTNAME", "FILECODE", "FileNm", "STRFILEPATH",
   "FILEPATH", "FileName"]

/-- Embeds `period + " " + " ".join(str(v) for v in item.values())`: the raw text
a record is matched against. -/
def bseAllText (item : List (String × JVal)) : String :=
  let period := pyStr (getChain item bsePeriodKeys (.str ""))
  period ++ " " ++ joinSp (item.map fun kv => pyStr kv.2)

/-- Python `str(year)[-2:]`. -/
def lastTwo (s : String) : String := ⟨s.data.drop (s.data.length - 2)⟩

/-- The year predicate of the BSE record scan: the 4-digit year, or
`-YY` with the last two digits of the year, occurs somewhere in the
concatenation of the period and *all* field values of the record
(the skip condition `target_str not in all_text and ...` of the source,
skip condition, de Morganed). -/
def bseYearMatches (item : List (String × JVal)) (year : Int) : Bool :=
  let target := toString year
  pyIn target (bseAllText item) || pyIn ("-" ++ lastTwo target) (bseAllText item)

def bseBaseAttach : String := "https://www.bseindia.com/xml-data/corpfiling/AttachHis/"

/-- Candidate base paths: GUID-shaped filenames go to `/AttachHis/` only. -/
def bseBases (isGuid : Bool) : List String :=
  if isGuid then [bseBaseAttach]
  else
    [bseBaseAttach,
     "https://www.bseindia.com/AnnualReports/",
     "https://www.bseindia.com/bseplus/AnnualReport/"]

/-- The HEAD-probe loop over candidate base paths: return the first
candidate whose probe answers with a status `< 400`; a raised probe is
ignored (`except: pass`). -/
def bseProbeBases (env : Env) (pdf : String) :
    List String → Option String × List String × List String
  | [] => (none, [], [])
  | base :: rest =>
    let cand := base ++ pdf
    match env.headStatus cand with
    | some st =>
      if st < 400 then (some cand, ["[BSE] ✅ URL confirmed: " ++ cand], [cand])
      else
        let r := bseProbeBases env pdf rest
        (r.1, r.2.1, cand :: r.2.2)
    | none =>
      let r := bseProbeBases env pdf rest
      (r.1, r.2.1, cand :: r.2.2)

/-- The record loop of `bse_get_report_url`: first record passing the
year predicate and carrying a non-empty file reference wins; absolute
URLs are returned verbatim, bare filenames get a probed (or best-guess)
base path.  A non-dict record raises (uncaught). -/
def bseScanReports (env : Env) (year : Int) :
    List JVal → Except Unit (Option String) × List String × List String
  | [] => (.ok none, [], [])
  | item :: rest =>
    match item with
    | .obj o =>
      if !bseYearMatches o year then bseScanReports env year rest
      else
        let period := pyStr (getChain o bsePeriodKeys (.str ""))
        let pdf0 := pyStrip (pyStr (getChain o bsePdfKeys (.str "")))
        let pdf := if pyEndsWith ".pdf.pdf" pdf0 then
            (⟨pdf0.data.take (pdf0.data.length - 4)⟩ : String)
          else pdf0
        let logM := "[BSE] Year " ++ period ++ " matched. pdf="
          ++ (⟨pdf.data.take 80⟩ : String)
        if pdf.isEmpty then
          let r := bseScanReports env year rest
          (r.1, logM :: "[BSE-DEBUG] No PDF field" :: r.2.1, r.2.2)
        else if pyStartsWith "http" pdf then
          (.ok (some pdf), [logM], [])
        else
          let bases := bseBases (isGuidName pdf)
          let pr := bseProbeBases env pdf bases
          match pr.1 with
          | some cand => (.ok (some cand), logM :: pr.2.1, pr.2.2)
          | none =>
            let best := bases.headD "" ++ pdf
            (.ok (some best),
              logM :: pr.2.1 ++ ["[BSE] Returning best-guess URL: " ++ best],
              pr.2.2)
    | _ => (.error (), [], [])

/-- The pre-scan debug pass over the first eight records
(`str(item.get("year") or ... or "?")`); raises on a non-dict record. -/
def bseDebugPeriods : List JVal → Option (List String)
  | [] => some []
  | .obj o :: t =>
    match bseDebugPeriods t with
    | some r =>
      some (pyStr (getChain o ["year", "PERIOD", "YEAR", "TO_PERIOD", "toDate"]
        (.str "?")) :: r)
    | none => none
  | _ :: _ => none

/-- Embeds `bse_get_report_url(scrip_code, year, logs, session)`: try the three
report endpoints, then scan the records for the target year. -/
def bse_get_report_url (env : Env) (scrip : String) (year : Int) :
    Except Unit (Option String) × List String × List String :=
  let logs0 := ["[BSE] Fetching report list for scrip " ++ scrip ++ "..."]
  let ep := bseEndpointLoop env [bseRepUrl1 scrip, bseRepUrl2 scrip, bseRepUrl3 scrip]
  match ep.1 with
  | none =>
    (.ok none,
      logs0 ++ ep.2.1 ++
        ["[BSE] ❌ No report list returned for " ++ scrip,
         "[BSE] 💡 Verify scrip code at bseindia.com/stock-share-price/.../XXXXXX/"],
      ep.2.2)
  | some d =>
    match d with
    | .arr (x :: xs) =>
      match x with
      | .obj o1 =>
        match bseDebugPeriods ((JVal.obj o1 :: xs).take 8) with
        | none => (.error (), logs0 ++ ep.2.1, ep.2.2)
        | some pvals =>
          let logsD :=
            ["[BSE-DEBUG] Report keys: " ++ joinSp (o1.map fun kv => kv.1),
             "[BSE-DEBUG] Periods found: " ++ joinSp pvals]
          let sc := bseScanReports env year (JVal.obj o1 :: xs)
          match sc.1 with
          | .error _ => (.error (), logs0 ++ ep.2.1 ++ logsD ++ sc.2.1, ep.2.2 ++ sc.2.2)
          | .ok (some u) =>
            (.ok (some u), logs0 ++ ep.2.1 ++ logsD ++ sc.2.1, ep.2.2 ++ sc.2.2)
          | .ok none =>
            (.ok none,
              logs0 ++ ep.2.1 ++ logsD ++ sc.2.1 ++
                ["[BSE] ❌ No report matched year " ++ toString year ++ " in "
                  ++ toString (xs.length + 1) ++ " entries"],
              ep.2.2 ++ sc.2.2)
      | _ => (.error (), logs0 ++ ep.2.1, ep.2.2)
    | _ => (.error (), logs0 ++ ep.2.1, ep.2.2)

/-! ## Fetched documents and `handle_bse` (app.py lines 426-445) -/

/-- The result dict of `handle_bse` / `handle_nse`. -/
structure Doc where
  filename : String
  data : List Nat
  exchange : String
  company : String
deriving DecidableEq, Repr

/-- Embeds `handle_bse(company, year, logs)`: resolve, locate, fetch, name. -/
def handle_bse (env : Env) (company : String) (year : Int) (cache : Option Master) :
    Except Unit (Option Doc) × Option Master × List String × List String :=
  let S := bse_search_company env company cache
  match S.1 with
  | .error _ => (.error (), S.2.1, S.2.2.1, S.2.2.2)
  | .ok none => (.ok none, S.2.1, S.2.2.1, S.2.2.2)
  | .ok (some (code, name)) =>
    if code.isEmpty then (.ok none, S.2.1, S.2.2.1, S.2.2.2)
    else
      let net1 := S.2.2.2 ++ bseSessionUrls
      let R := bse_get_report_url env code year
      match R.1 with
      | .error _ => (.error (), S.2.1, S.2.2.1 ++ R.2.1, net1 ++ R.2.2)
      | .ok none => (.ok none, S.2.1, S.2.2.1 ++ R.2.1, net1 ++ R.2.2)
      | .ok (some url) =>
        let logs2 := S.2.2.1 ++ R.2.1 ++ ["[BSE] Downloading PDF..."]
        match fetch_bytes env url with
        | none =>
          (.ok none, S.2.1, logs2 ++ ["[BSE] ❌ PDF download failed: " ++ url],
            net1 ++ R.2.2 ++ [url])
        | some bytes =>
          let fname := sanitize ("BSE_" ++ name ++ "_" ++ toString year
            ++ "_AnnualReport.pdf")
          (.ok (some ⟨fname, bytes, "BSE", name⟩), S.2.1,
            logs2 ++ ["[BSE] ✅ " ++ fname], net1 ++ R.2.2 ++ [url])

/-! ## NSE pipeline (app.py lines 462-575) -/

def nseAutoUrl (q : String) : String :=
  "https://www.nseindia.com/api/search/autocomplete?q=" ++ pyQuote q

def nseRepUrl1 (symbol : String) : String :=
  "https://www.nseindia.com/api/annual-reports?index=equities&symbol=" ++ symbol

def nseRepUrl2 (symbol : String) : String :=
  nseRepUrl1 symbol ++ "&category=annual-report"

/-- Embeds `nse_search_company(query, session, logs)`: first autocomplete result
wins; the trading symbol is upper-cased.  The company name is kept as the
raw JSON value (the source only stringifies it later). -/
def nse_search_company (env : Env) (query : String) :
    Except Unit (Option (String × JVal)) × List String × List String :=
  let logs0 := ["[NSE] Searching: " ++ query]
  let url := nseAutoUrl query
  let data := env.fetchJson url
  let resultsJ : JVal :=
    match data with
    | some (.arr l) => .arr l
    | some (.obj o) =>
      jOr (jOfOpt (objGet o "symbols")) (jOr (jOfOpt (objGet o "data")) (.arr []))
    | _ => .arr []
  match resultsJ with
  | .arr (first :: _) =>
    match first with
    | .obj o =>
      let symV := getChain o ["symbol", "data"] (.str "")
      if jTruthy symV then
        match symV with
        | .str s =>
          let name := getChain o ["company_name", "companyName"] symV
          (.ok (some (pyUpper s, name)),
            logs0 ++ ["[NSE] Found: " ++ pyStr name ++ " (" ++ s ++ ")"], [url])
        | _ => (.error (), logs0, [url])   -- symbol.upper() on a non-str
      else
        (.ok none, logs0 ++ ["[NSE] ❌ Company not found: " ++ query], [url])
    | _ => (.error (), logs0, [url])        -- results[0].get raises
  | .arr [] =>
    (.ok none, logs0 ++ ["[NSE] ❌ Company not found: " ++ query], [url])
  | _ => (.error (), logs0, [url])          -- results[0] on a non-list raises

/-- The year predicate of the NSE record scan:
`to_yr == str(year) or from_yr == str(year)`. -/
def nseYearMatches (o : List (String × JVal)) (year : Int) : Bool :=
  pyStr (getChain o ["toYr"] (.str "")) == toString year ||
  pyStr (getChain o ["fromYr"] (.str "")) == toString year

/-- The record loop of `nse_get_report_url`: the first record matching the
year and carrying a non-empty `fileName` wins; relative references are
rooted at the NSE origin.  A non-dict record raises (uncaught). -/
def nseScanLoop (year : Int) :
    List JVal → Except Unit (Option String) × List String
  | [] => (.ok none, [])
  | item :: rest =>
    match item with
    | .obj o =>
      let from_yr := pyStr (getChain o ["fromYr"] (.str ""))
      let to_yr := pyStr (getChain o ["toYr"] (.str ""))
      let pdf_url := pyStr (getChain o ["fileName"] (.str ""))
      let logD := "[NSE-DEBUG] Entry: fromYr=" ++ from_yr ++ " toYr=" ++ to_yr
        ++ " file=" ++ (⟨pdf_url.data.take 60⟩ : String)
      if nseYearMatches o year then
        let logM := "[NSE] ✅ Matched: fromYr=" ++ from_yr ++ " toYr=" ++ to_yr
        if !pdf_url.isEmpty then
          let full := if pyStartsWith "http" pdf_url then pdf_url
            else "https://www.nseindia.com" ++ pdf_url
          (.ok (some full), [logD, logM])
        else
          let r := nseScanLoop year rest
          (r.1, logD :: logM :: "[NSE-DEBUG] Matched but fileName empty" :: r.2)
      else
        let r := nseScanLoop year rest
        (r.1, logD :: r.2)
    | _ => (.error (), [])

/-- Python `type(x).__name__` for the log line of `nse_get_report_url`. -/
def pyTypeName : Option JVal → String
  | none => "NoneType"
  | some (.str _) => "str"
  | some (.num _) => "int"
  | some (.bool _) => "bool"
  | some .null => "NoneType"
  | some (.arr _) => "list"
  | some (.obj _) => "dict"

/-- The debug pass over the first ten records
(`item.get` with default `?` on `fromYr` and `toYr`); raises on a non-dict. -/
def nseDebugPeriods : List JVal → Option (List String)
  | [] => some []
  | .obj o :: t =>
    match nseDebugPeriods t with
    | some r =>
      some (("fromYr=" ++ pyStr ((objGet o "fromYr").getD (.str "?"))
        ++ " toYr=" ++ pyStr ((objGet o "toYr").getD (.str "?"))) :: r)
    | none => none
  | _ :: _ => none

/-- Embeds `nse_get_report_url(symbol, year, session, logs)`: primary then
alternate endpoint, dict unwrap, then the record scan. -/
def nse_get_report_url (env : Env) (symbol : String) (year : Int) :
    Except Unit (Option String) × List String × List String :=
  let logs0 := ["[NSE] Fetching report list for " ++ symbol ++ "..."]
  let d1 := env.fetchJson (nseRepUrl1 symbol)
  let tryAlt := match d1 with
    | none => true
    | some v => !jTruthy v
  let data : Option JVal := if tryAlt then env.fetchJson (nseRepUrl2 symbol) else d1
  let net0 := if tryAlt then [nseRepUrl1 symbol, nseRepUrl2 symbol]
    else [nseRepUrl1 symbol]
  let logsU : List String :=
    match data with
    | some (.obj o) => ["[NSE-DEBUG] Response dict keys: " ++ joinSp (o.map fun kv => kv.1)]
    | _ => []
  let data2 : Option JVal :=
    match data with
    | some (.obj o) =>
      some (jOr (jOfOpt (objGet o "data"))
        (jOr (jOfOpt (objGet o "reports"))
          (jOr (jOfOpt (objGet o "annualReports")) (.arr []))))
    | other => other
  match data2 with
  | some (.arr (x :: xs)) =>
    match x with
    | .obj o1 =>
      match nseDebugPeriods ((JVal.obj o1 :: xs).take 10) with
      | none => (.error (), logs0 ++ logsU, net0)
      | some pvals =>
        let logsD :=
          ["[NSE-DEBUG] Report list keys: " ++ joinSp (o1.map fun kv => kv.1),
           "[NSE-DEBUG] Available periods (first 10): " ++ joinSp pvals]
        let sc := nseScanLoop year (JVal.obj o1 :: xs)
        match sc.1 with
        | .error _ => (.error (), logs0 ++ logsU ++ logsD ++ sc.2, net0)
        | .ok (some u) => (.ok (some u), logs0 ++ logsU ++ logsD ++ sc.2, net0)
        | .ok none =>
          (.ok none,
            logs0 ++ logsU ++ logsD ++ sc.2 ++
              ["[NSE] ❌ No report found for toYr=" ++ toString year
                ++ " (checked " ++ toString (xs.length + 1) ++ " entries)"],
            net0)
    | _ => (.error (), logs0 ++ logsU, net0)   -- data[0].keys() raises
  | other =>
    (.ok none,
      logs0 ++ logsU ++
        ["[NSE] ❌ No report list returned (got " ++ pyTypeName other ++ ")"],
      net0)

/-- Embeds `handle_nse(company, year, logs)`: prime a session, resolve the
symbol, locate the report, fetch the bytes, name the file. -/
def handle_nse (env : Env) (company : String) (year : Int) :
    Except Unit (Option Doc) × List String × List String :=
  let net0 := nseSessionUrls
  let S := nse_search_company env company
  match S.1 with
  | .error _ => (.error (), S.2.1, net0 ++ S.2.2)
  | .ok none => (.ok none, S.2.1, net0 ++ S.2.2)
  | .ok (some (symbol, name)) =>
    if symbol.isEmpty then (.ok none, S.2.1, net0 ++ S.2.2)
    else
      let R := nse_get_report_url env symbol year
      match R.1 with
      | .error _ => (.error (), S.2.1 ++ R.2.1, net0 ++ S.2.2 ++ R.2.2)
      | .ok none => (.ok none, S.2.1 ++ R.2.1, net0 ++ S.2.2 ++ R.2.2)
      | .ok (some url) =>
        let logs2 := S.2.1 ++ R.2.1 ++ ["[NSE] Downloading PDF..."]
        match fetch_bytes env url with
        | none =>
          (.ok none, logs2 ++ ["[NSE] ❌ PDF download failed: " ++ url],
            net0 ++ S.2.2 ++ R.2.2 ++ [url])
        | some bytes =>
          let fname := sanitize ("NSE_" ++ pyStr name ++ "_" ++ toString year
            ++ "_AnnualReport.pdf")
          (.ok (some ⟨fname, bytes, "NSE", pyStr name⟩),
            logs2 ++ ["[NSE] ✅ " ++ fname], net0 ++ S.2.2 ++ R.2.2 ++ [url])

/-! ## Batch runner (app.py lines 581-596) -/

def sepLog : String := "\n" ++ (⟨List.replicate 48 '─'⟩ : String)

/-- The per-company loop of `run_downloads`: BSE then NSE as selected by
the exchange switch; a successful handler appends its document, a `None`
is skipped, an uncaught exception aborts the whole batch. -/
def runLoop (env : Env) (year : Int) (exchange : String) :
    List String → Option Master →
    Except Unit (List Doc) × Option Master × List String × List String
  | [], cache => (.ok [], cache, [], [])
  | c :: rest, cache =>
    let logs0 := [sepLog, "▶ " ++ c]
    let doBse := exchange == "BSE" || exchange == "BOTH"
    let doNse := exchange == "NSE" || exchange == "BOTH"
    let B := if doBse then handle_bse env c year cache
      else (.ok none, cache, [], [])
    match B.1 with
    | .error _ => (.error (), B.2.1, logs0 ++ B.2.2.1, B.2.2.2)
    | .ok resB =>
      let N := if doNse then handle_nse env c year else (.ok none, [], [])
      match N.1 with
      | .error _ =>
        (.error (), B.2.1, logs0 ++ B.2.2.1 ++ N.2.1, B.2.2.2 ++ N.2.2)
      | .ok resN =>
        let R := runLoop env year exchange rest B.2.1
        match R.1 with
        | .error _ =>
          (.error (), R.2.1, logs0 ++ B.2.2.1 ++ N.2.1 ++ R.2.2.1,
            B.2.2.2 ++ N.2.2 ++ R.2.2.2)
        | .ok docs =>
          (.ok (resB.toList ++ resN.toList ++ docs), R.2.1,
            logs0 ++ B.2.2.1 ++ N.2.1 ++ R.2.2.1,
            B.2.2.2 ++ N.2.2 ++ R.2.2.2)

/-- Embeds `run_downloads(companies, year, exchange, logs)`: sequence every
company through the selected pipelines, collecting documents in order. -/
def run_downloads (env : Env) (companies : List String) (year : Int)
    (exchange : String) (cache : Option Master) :
    Except Unit (List Doc) × Option Master × List String × List String :=
  let R := runLoop env year exchange companies cache
  match R.1 with
  | .error _ => (.error (), R.2.1, R.2.2.1, R.2.2.2)
  | .ok docs =>
    (.ok docs, R.2.1,
      R.2.2.1 ++ [sepLog, "Done — " ++ toString docs.length ++ " file(s) ready."],
      R.2.2.2)

/-! ## Concrete fixtures used by the claim theorems -/

deriving instance DecidableEq for Except

/-- An environment in which every network request fails. -/
def envNone : Env := ⟨fun _ => none, fun _ => .err, fun _ => none, none⟩

/-- A populated master whose only key is shorter than five characters
(reachable, e.g., after loading a CSV with the single security ITC). -/
def mITC : Master := [("itc", ("500875", "ITC"))]

/-- Two CSV rows sharing the security name ALPHA; the second overwrites
the name key, the first stays reachable through its ISIN key. -/
def dupRows : List (List (String × String)) :=
  [[("Security Code", "1"), ("Security Name", "ALPHA"), ("ISIN No", "INE0000A01")],
   [("Security Code", "2"), ("Security Name", "ALPHA")]]

/-- The master the CSV loader builds from `dupRows`. -/
def mDup : Master := parseCsvRows dupRows []

/-- A one-entry master used by the idempotence witness. -/
def mAcme : Master := [("acme widgets", ("100", "ACME WIDGETS"))]

/-- A filing record for the 2023-24 fiscal year: period label `2023-24`,
`fromYr` 2023, `toYr` 2024, with the file-reference fields of both exchanges. -/
def rec24 : List (String × JVal) :=
  [("year", .str "2023-24"), ("fromYr", .num 2023), ("toYr", .num 2024),
   ("file_name", .str "rep.pdf"), ("fileName", .str "/content/rep.pdf")]

/-- An environment whose report-list endpoints serve exactly the one
`rec24` record (for scrip 500049 on BSE and symbol SYM on NSE). -/
def envC4 : Env :=
  { fetchJson := fun u =>
      if u = bseRepUrl1 "500049" then some (.arr [.obj rec24])
      else if u = nseRepUrl1 "SYM" then some (.arr [.obj rec24])
      else none,
    fetchBytes := fun _ => .err,
    headStatus := fun _ => none,
    csv := none }

/-- An NSE filing record whose fiscal year *ends* in 2023
(`fromYr` 2022, `toYr` 2023). -/
def itemEnd : List (String × JVal) :=
  [("fromYr", .num 2022), ("toYr", .num 2023), ("fileName", .str "/a.pdf")]

/-! ## C1 -/

/-- C1: the claim states that `bse_search_company` never lets an exception
reach its caller for a non-empty input.  The code violates it: on the
non-empty, whitespace-only query `" "`, with the master cache already
populated as `mITC` (no key longer than four characters, so the substring
stage finds nothing), strategy 3 reaches
`first_word = (stripped or q_lower).split()[0]` with both strings empty
and raises an uncaught `IndexError`.  This theorem evaluates the embedded
code at that failing input and observes the exception outcome. -/
theorem bse_search_company_whitespace_crash :
    (bse_search_company envNone " " (some mITC)).1 = .error () := by decide

/-! ## C2 -/

/-- C2 counterexample: under the NSE locator, the record whose fiscal
year merely *ends* in 2023 (`fromYr` 2022, `toYr` 2023) *does* match
target year 2023 and yields its document URL — the source matches
`to_yr == str(year) or from_yr == str(year)`, not `fromYr` alone as the
claim states. -/
theorem nse_end_year_record_matches_ce :
    (nseScanLoop 2023 [.obj itemEnd]).1 = .ok (some "https://www.nseindia.com/a.pdf") ∧
    pyStr (getChain itemEnd ["fromYr"] (.str "")) ≠ toString (2023 : Int) := by
  decide

/-- C2 (amended): under exchange B (NSE), a target year `Y` yields a
document exactly when some record has `fromYr = Y` *or* `toYr = Y` (and a
non-empty `fileName`); a record whose fiscal year ends in `Y` therefore
also matches.  Stated for record lists whose elements are JSON objects
(anything else raises before matching). -/
theorem nse_year_match_amended (items : List JVal) (year : Int)
    (hobj : ∀ x ∈ items, ∃ o, x = JVal.obj o) :
    (∃ u, (nseScanLoop year items).1 = .ok (some u)) ↔
      ∃ o, JVal.obj o ∈ items ∧
        (pyStr (getChain o ["fromYr"] (.str "")) = toString year ∨
         pyStr (getChain o ["toYr"] (.str "")) = toString year) ∧
        pyStr (getChain o ["fileName"] (.str "")) ≠ "" := by
  induction items with
  | nil =>
    constructor
    · rintro ⟨u, hu⟩
      simp [nseScanLoop] at hu
    · rintro ⟨o, ho, _⟩
      simp at ho
  | cons x rest ih =>
    obtain ⟨o, rfl⟩ := hobj x (List.mem_cons_self x rest)
    have ih2 := ih fun y hy => hobj y (List.mem_cons_of_mem _ hy)
    have hmatch : nseYearMatches o year = true ↔
        (pyStr (getChain o ["fromYr"] (.str "")) = toString year ∨
         pyStr (getChain o ["toYr"] (.str "")) = toString year) := by
      unfold nseYearMatches
      rw [Bool.or_eq_true, beq_iff_eq, beq_iff_eq]
      tauto
    by_cases hm : nseYearMatches o year = true
    · by_cases hp : pyStr (getChain o ["fileName"] (.str "")) = ""
      · -- matched but the file reference is empty: the loop continues
        have hemp : (pyStr (getChain o ["fileName"] (.str ""))).isEmpty = true := by
          rw [hp]
          decide
        have hstep : (nseScanLoop year (JVal.obj o :: rest)).1
            = (nseScanLoop year rest).1 := by
          simp [nseScanLoop, hm, hemp]
        rw [hstep]
        constructor
        · intro hu
          obtain ⟨o2, h1, h2, h3⟩ := ih2.mp hu
          exact ⟨o2, List.mem_cons_of_mem _ h1, h2, h3⟩
        · rintro ⟨o2, h1, h2, h3⟩
          rcases List.mem_cons.mp h1 with heq | hmem
          · cases heq
            exact absurd hp h3
          · exact ih2.mpr ⟨o2, hmem, h2, h3⟩
      · -- matched with a non-empty file reference: the record wins
        have hne : (pyStr (getChain o ["fileName"] (.str ""))).isEmpty = false := by
          rw [Bool.eq_false_iff]
          intro hh
          exact hp ((String.isEmpty_iff _).mp hh)
        have hfix : (nseScanLoop year (JVal.obj o :: rest)).1
            = .ok (some (if pyStartsWith "http" (pyStr (getChain o ["fileName"] (.str "")))
                then pyStr (getChain o ["fileName"] (.str ""))
                else "https://www.nseindia.com"
                  ++ pyStr (getChain o ["fileName"] (.str "")))) := by
          simp only [nseScanLoop, hm, if_true, hne, Bool.not_false]
        have hstep : ∃ u, (nseScanLoop year (JVal.obj o :: rest)).1
            = .ok (some u) := ⟨_, hfix⟩
        constructor
        · intro _
          exact ⟨o, List.mem_cons_self _ _, hmatch.mp hm, hp⟩
        · intro _
          exact hstep
    · -- the record does not match the year: the loop continues
      have hstep : (nseScanLoop year (JVal.obj o :: rest)).1
          = (nseScanLoop year rest).1 := by
        simp [nseScanLoop, hm]
      rw [hstep]
      constructor
      · intro hu
        obtain ⟨o2, h1, h2, h3⟩ := ih2.mp hu
        exact ⟨o2, List.mem_cons_of_mem _ h1, h2, h3⟩
      · rintro ⟨o2, h1, h2, h3⟩
        rcases List.mem_cons.mp h1 with heq | hmem
        · cases heq
          exact absurd (hmatch.mpr h2) hm
        · exact ih2.mpr ⟨o2, hmem, h2, h3⟩

/-- C2 amended, witnessed at a concrete input: the single end-year record
for target 2023. -/
theorem nse_year_match_amended_witness :
    ∃ u, (nseScanLoop 2023 [.obj itemEnd]).1 = .ok (some u) :=
  (nse_year_match_amended [.obj itemEnd] 2023
    (by intro x hx; simp at hx; exact ⟨itemEnd, hx⟩)).mpr
    ⟨itemEnd, by simp, by right; decide, by decide⟩

/-! ## C3 -/

def pdfB (c : String) : String := "http://files.example/b" ++ c ++ ".pdf"

def pdfN (c : String) : String := "http://files.example/n" ++ c ++ ".pdf"

/-- A BSE filing record for company `c` (absolute document URL). -/
def bItem (c : String) : List (String × JVal) :=
  [("year", .str "2023-24"), ("file_name", .str (pdfB c))]

/-- An NSE filing record for company `c`. -/
def nItem (c : String) : List (String × JVal) :=
  [("fromYr", .num 2023), ("toYr", .num 2024), ("fileName", .str (pdfN c))]

/-- One NSE autocomplete hit for company `c`. -/
def nHit (c : String) : List (String × JVal) :=
  [("symbol", .str ("S" ++ c)), ("company_name", .str ("Co" ++ c))]

/-- The batch-scenario environment: companies 111111 and 333333 resolve
and serve one report each on both exchanges; company 222222 resolves but
every report-list endpoint fails (the listing stage) on both exchanges. -/
def envC3 : Env :=
  { fetchJson := fun u =>
      if u = bseRepUrl1 "111111" then some (.arr [.obj (bItem "111111")])
      else if u = bseRepUrl1 "333333" then some (.arr [.obj (bItem "333333")])
      else if u = nseAutoUrl "111111" then some (.arr [.obj (nHit "111111")])
      else if u = nseAutoUrl "222222" then some (.arr [.obj (nHit "222222")])
      else if u = nseAutoUrl "333333" then some (.arr [.obj (nHit "333333")])
      else if u = nseRepUrl1 "S111111" then some (.arr [.obj (nItem "111111")])
      else if u = nseRepUrl1 "S333333" then some (.arr [.obj (nItem "333333")])
      else none,
    fetchBytes := fun u =>
      if u = pdfB "111111" || u = pdfB "333333"
          || u = pdfN "111111" || u = pdfN "333333" then
        .resp 200 (List.replicate 1000 0)
      else .err,
    headStatus := fun _ => none,
    csv := none }

def oneK : List Nat := List.replicate 1000 0

def docB1 : Doc := ⟨"BSE_111111_2024_AnnualReport.pdf", oneK, "BSE", "111111"⟩

def docN1 : Doc := ⟨"NSE_Co111111_2024_AnnualReport.pdf", oneK, "NSE", "Co111111"⟩

def docB3 : Doc := ⟨"BSE_333333_2024_AnnualReport.pdf", oneK, "BSE", "333333"⟩

def docN3 : Doc := ⟨"NSE_Co333333_2024_AnnualReport.pdf", oneK, "NSE", "Co333333"⟩

/-- C3: batch-processing three companies on BOTH exchanges, where company
222222 fails at the listing stage (on each exchange), still returns the
fetched documents of companies 111111 and 333333 in input order
(BSE before NSE for each company), never aborts, and the log carries a
failure entry naming 222222 and no such entry for the companies that
succeeded. -/
theorem run_downloads_batch_scenario :
    (run_downloads envC3 ["111111", "222222", "333333"] 2024 "BOTH" none).1
      = .ok [docB1, docN1, docB3, docN3] ∧
    "[BSE] ❌ No report list returned for 222222"
      ∈ (run_downloads envC3 ["111111", "222222", "333333"] 2024 "BOTH" none).2.2.1 ∧
    "[NSE] ❌ No report list returned (got NoneType)"
      ∈ (run_downloads envC3 ["111111", "222222", "333333"] 2024 "BOTH" none).2.2.1 ∧
    "[BSE] ❌ No report list returned for 111111"
      ∉ (run_downloads envC3 ["111111", "222222", "333333"] 2024 "BOTH" none).2.2.1 ∧
    "[BSE] ❌ No report list returned for 333333"
      ∉ (run_downloads envC3 ["111111", "222222", "333333"] 2024 "BOTH" none).2.2.1 := by
  set_option maxRecDepth 10000 in decide

/-! ## C4 -/

/-- C4: for a record set holding exactly the one `rec24` record
(label `2023-24`, `fromYr` 2023, `toYr` 2024): the NSE locator
(exchange B, start-year convention) finds year 2023, the BSE locator
(exchange A, end-year convention) finds year 2024, and year 2025 yields
the year-not-matched absence value (`None`) under either locator. -/
theorem report_locator_fy_2023_24 :
    (nse_get_report_url envC4 "SYM" 2023).1
      = .ok (some "https://www.nseindia.com/content/rep.pdf") ∧
    (bse_get_report_url envC4 "500049" 2024).1
      = .ok (some "https://www.bseindia.com/xml-data/corpfiling/AttachHis/rep.pdf") ∧
    (nse_get_report_url envC4 "SYM" 2025).1 = .ok none ∧
    (bse_get_report_url envC4 "500049" 2025).1 = .ok none := by
  decide

/-! ## C5 -/

/-- C5: `fetch_bytes` returns a payload exactly when the transport
succeeded, `raise_for_status` would not raise (no 4xx/5xx status), and
the payload reaches the 1000-byte threshold — and then it returns the
response bytes unchanged; every transport error, error status, or
undersized payload yields `None`. -/
theorem fetch_bytes_success_characterization (env : Env) (url : String)
    (b : List Nat) :
    fetch_bytes env url = some b ↔
      ∃ s c, env.fetchBytes url = .resp s c ∧ isHttpError s = false ∧
        1000 ≤ c.length ∧ b = c := by
  unfold fetch_bytes
  cases henv : env.fetchBytes url with
  | err => simp
  | resp s c =>
    by_cases he : isHttpError s = true
    · simp [he]
    · by_cases hl : c.length < 1000
      · simp [he, hl]
      · simp [he, hl]
        constructor
        · intro hcb
          exact ⟨s, c, ⟨rfl, rfl⟩, by simpa using he, by omega, hcb.symm⟩
        · rintro ⟨s2, c2, ⟨rfl, rfl⟩, _, _, hb⟩
          exact hb.symm

/-! ## C6 -/

/-- C6: whenever the input matches the canonical direct pattern of exchange A
(`bseDirectCode` finds an embedded six-digit scrip code, either as the
bare code or inside a `bseindia.com` URL), the resolver returns that code
at once: the cache is untouched, no log line is written, and the list of
network requests is empty. -/
theorem bse_direct_parse_no_network (env : Env) (cache : Option Master)
    (q c : String) (h : bseDirectCode q = some c) :
    ∃ nm, bse_search_company env q cache = (.ok (some (c, nm)), cache, [], []) := by
  unfold bseDirectCode at h
  unfold bse_search_company
  cases hx : (if pyIn "bseindia.com" q then extractSlashCode q.data else none) with
  | some ds =>
    rw [hx] at h
    simp only [Option.some.injEq] at h
    subst h
    exact ⟨q, rfl⟩
  | none =>
    rw [hx] at h
    by_cases h6 : isSixDigits (pyStrip q) = true
    · rw [if_pos h6] at h
      simp only [Option.some.injEq] at h
      subst h
      rw [if_pos h6]
      exact ⟨pyStrip q, rfl⟩
    · rw [if_neg h6] at h
      cases h

/-- C6 witnessed at the bare six-digit code 500049. -/
theorem bse_direct_parse_no_network_witness :
    ∃ nm, bse_search_company envNone "500049" none
      = (.ok (some ("500049", nm)), none, [], []) :=
  bse_direct_parse_no_network envNone none "500049" "500049" (by decide)

/-! ## C7 -/

/-- The sanitisation claimed by the spec, stated from its words for comparison:
replace exactly `/`, `:` and `*` by underscore and alter nothing else. -/
def sanitizeSpecClaim (name : String) : String :=
  ⟨name.data.map fun ch => if ch = '/' || ch = ':' || ch = '*' then '_' else ch⟩

/-- C7 counterexample: on the name `" a/<b "` (which contains `/`), the
real `sanitize` also replaces `<` and strips the surrounding whitespace,
so its output differs from the claimed replace-only-three
behaviour. -/
theorem sanitize_spec_ce :
    sanitize " a/<b " = "a__b" ∧
    sanitizeSpecClaim " a/<b " = " a_<b " ∧
    sanitize " a/<b " ≠ sanitizeSpecClaim " a/<b " := by decide

/-- C7 (amended): `sanitize` replaces every character of the full unsafe
class `< > : " / \ | ? *` by underscore and then strips leading/trailing
whitespace; on a name where that strip is a no-op, the output has the
same length as the input and agrees with it at every position except the
unsafe characters, which become `_`. -/
theorem sanitize_amended (name : String)
    (h : stripChars (name.data.map sanChar) = name.data.map sanChar) :
    (sanitize name).data.length = name.data.length ∧
    ∀ i : Nat, (sanitize name).data.get? i
      = (name.data.get? i).map fun ch => if isUnsafeChar ch then '_' else ch := by
  have hd : (sanitize name).data = name.data.map sanChar := h
  refine ⟨by rw [hd, List.length_map], fun i => ?_⟩
  rw [hd, List.get?_map]
  rfl

/-- C7 amended, witnessed on the concrete name `"a/<b"`. -/
theorem sanitize_amended_witness :
    (sanitize "a/<b").data.get? 1 = some '_' ∧
    (sanitize "a/<b").data.get? 2 = some '_' ∧
    (sanitize "a/<b").data.get? 3 = some 'b' := by
  have h := (sanitize_amended "a/<b" (by decide)).2
  refine ⟨?_, ?_, ?_⟩
  · rw [h 1]; decide
  · rw [h 2]; decide
  · rw [h 3]; decide

/-! ## C8 -/

/-- The primary CSV population of the master fails: transport error,
non-200 status, or no comma in the first 100 characters. -/
def csvLoadFails (env : Env) : Prop :=
  match env.csv with
  | none => True
  | some r => (r.status == 200 && r.hasCommaEarly) = false

/-- The JSON fallback population finds nothing: the endpoint does not
yield a non-empty JSON list. -/
def jsonLoadFails (env : Env) : Prop :=
  match env.fetchJson bseJsonMasterUrl with
  | some (.arr (_ :: _)) => False
  | _ => True

theorem loadJsonFallback_cache (env : Env) (logs0 net0 : List String) :
    (loadJsonFallback env logs0 net0).2.1 = some (loadJsonFallback env logs0 net0).1 := by
  unfold loadJsonFallback
  cases env.fetchJson bseJsonMasterUrl with
  | none => rfl
  | some v =>
    cases v with
    | arr l =>
      cases l with
      | nil => rfl
      | cons x xs =>
        cases x with
        | obj o1 =>
          cases hp : (parseJsonItems (JVal.obj o1 :: xs) []).2 <;> simp [hp]
        | str s => rfl
        | num n => rfl
        | bool b => rfl
        | null => rfl
        | arr l2 => rfl
    | str s => rfl
    | num n => rfl
    | bool b => rfl
    | null => rfl
    | obj o => rfl

theorem loadJsonFallback_fails (env : Env) (logs0 net0 : List String)
    (h2 : jsonLoadFails env) :
    (loadJsonFallback env logs0 net0).1 = [] ∧
    (loadJsonFallback env logs0 net0).2.1 = some [] := by
  unfold loadJsonFallback
  unfold jsonLoadFails at h2
  cases hj : env.fetchJson bseJsonMasterUrl with
  | none => exact ⟨rfl, rfl⟩
  | some v =>
    rw [hj] at h2
    cases v with
    | arr l =>
      cases l with
      | nil => exact ⟨rfl, rfl⟩
      | cons x xs => simp at h2
    | str s => exact ⟨rfl, rfl⟩
    | num n => exact ⟨rfl, rfl⟩
    | bool b => exact ⟨rfl, rfl⟩
    | null => exact ⟨rfl, rfl⟩
    | obj o => exact ⟨rfl, rfl⟩

/-- C8: the BSE reference dataset is populated lazily and at most once
per process.  (1) Once the cache is set (to any dict, full or empty),
`_load_bse_master` returns it unchanged with no log line and no network
request — for every environment, so no reload or refresh can occur.
(2) The first load always leaves the cache set.  (3) When both the CSV
primary and the JSON fallback fail, the load returns an empty dict and
caches it — an outcome, not an error.  (4) Every subsequent fuzzy/ISIN
lookup against the empty cached dict returns the not-found value without
touching the network. -/
theorem bse_master_cache_invariants :
    (∀ (env : Env) (m : Master), load_bse_master env (some m) = (m, some m, [], [])) ∧
    (∀ env : Env, (load_bse_master env none).2.1 = some (load_bse_master env none).1) ∧
    (∀ env : Env, csvLoadFails env → jsonLoadFails env →
      (load_bse_master env none).1 = [] ∧ (load_bse_master env none).2.1 = some []) ∧
    (∀ (env : Env) (query : String),
      search_bse_master env query (some []) = (.ok none, some [], [], [])) := by
  refine ⟨fun env m => rfl, fun env => ?_, fun env h1 h2 => ?_, fun env query => rfl⟩
  · unfold load_bse_master
    cases hc : env.csv with
    | none =>
      dsimp only
      exact loadJsonFallback_cache env _ _
    | some r =>
      dsimp only
      by_cases hr : (r.status == 200 && r.hasCommaEarly) = true
      · rw [if_pos hr]
      · rw [if_neg hr]
        exact loadJsonFallback_cache env _ _
  · unfold load_bse_master
    unfold csvLoadFails at h1
    cases hc : env.csv with
    | none =>
      dsimp only
      exact loadJsonFallback_fails env _ _ h2
    | some r =>
      rw [hc] at h1
      dsimp only
      rw [if_neg (by simp [h1])]
      exact loadJsonFallback_fails env _ _ h2

/-- C8 witnessed: the cache invariants at the all-failing environment
and the concrete cached dict `mITC`. -/
theorem bse_master_cache_invariants_witness :
    load_bse_master envNone (some mITC) = (mITC, some mITC, [], []) ∧
    ((load_bse_master envNone none).1 = [] ∧
      (load_bse_master envNone none).2.1 = some []) ∧
    search_bse_master envNone "acme" (some []) = (.ok none, some [], [], []) := by
  refine ⟨bse_master_cache_invariants.1 envNone mITC,
    bse_master_cache_invariants.2.2.1 envNone ?_ ?_,
    bse_master_cache_invariants.2.2.2 envNone "acme"⟩
  · simp [csvLoadFails, envNone]
  · simp [jsonLoadFails, envNone]

/-! ## C9 -/

/-- C9 counterexample: against the loader-built dataset `mDup` (two
securities sharing the name ALPHA: the second overwrote the name key, the
first stays reachable via its ISIN key), resolving the ISIN returns
`("1", "ALPHA")`, but re-resolving the returned canonical name `"ALPHA"`
returns the other security `("2", "ALPHA")` — fuzzy resolution is not
idempotent on such a dataset. -/
theorem search_master_idempotence_ce :
    mDup = [("alpha", ("2", "ALPHA")), ("INE0000A01", ("1", "ALPHA"))] ∧
    (search_bse_master envNone "INE0000A01" (some mDup)).1 = .ok (some ("1", "ALPHA")) ∧
    (search_bse_master envNone "ALPHA" (some mDup)).1 = .ok (some ("2", "ALPHA")) ∧
    (("2", "ALPHA") : String × String) ≠ ("1", "ALPHA") := by
  decide

/-- C9 (amended): resolution is idempotent for every result whose
canonical name is *canonical in the dataset*: the name is
strip-invariant, its lower-cased form is keyed back to the same
`(code, name)` pair, and its upper-cased form is not the key of a
different entry.  (These hold for loader-built datasets without
duplicate names or name/identifier collisions.) -/
theorem search_master_idempotent_canonical (env : Env) (m : Master)
    (query c n : String)
    (hq : (search_bse_master env query (some m)).1 = .ok (some (c, n)))
    (h0 : pyStrip n = n)
    (h1 : List.lookup (pyLower n) m = some (c, n))
    (h2 : List.lookup (pyUpper n) m = none ∨
          List.lookup (pyUpper n) m = some (c, n)) :
    (search_bse_master env n (some m)).1 = .ok (some (c, n)) := by
  have hload : load_bse_master env (some m) = (m, some m, [], []) := rfl
  have hne : m.isEmpty = false := by
    cases m with
    | nil => simp [List.lookup] at h1
    | cons a t => rfl
  unfold search_bse_master
  rw [hload]
  dsimp only
  rw [h0]
  rw [if_neg (by simp [hne])]
  rcases h2 with h2u | h2u
  · rw [h2u]
    dsimp only
    rw [h1]
  · rw [h2u]

/-- C9 amended, witnessed: the fuzzy substring resolution of `"Acme"`
against `mAcme` yields `("100", "ACME WIDGETS")`, and re-resolving that
canonical name yields the same pair. -/
theorem search_master_idempotent_canonical_witness :
    (search_bse_master envNone "ACME WIDGETS" (some mAcme)).1
      = .ok (some ("100", "ACME WIDGETS")) :=
  search_master_idempotent_canonical envNone mAcme "Acme" "100" "ACME WIDGETS"
    (by decide) (by decide) (by decide) (Or.inl (by decide))

/-! ## C10 -/

/-- C10: the BSE year predicate scans the concatenation of the period and
*every* field value of a record: whenever the 4-digit year string, or the
`-YY` two-digit suffix pattern, occurs in the string form of *any* field
value — a filename, a date, an unrelated field — the record matches the
target year. -/
theorem bse_year_match_any_field (item : List (String × JVal)) (year : Int)
    (k : String) (v : JVal) (hm : (k, v) ∈ item)
    (hocc : pyIn (toString year) (pyStr v) = true ∨
            pyIn ("-" ++ lastTwo (toString year)) (pyStr v) = true) :
    bseYearMatches item year = true := by
  have hv : pyStr v ∈ item.map (fun kv => pyStr kv.2) :=
    List.mem_map_of_mem (fun kv => pyStr kv.2) hm
  have hj : subIn (pyStr v).data (joinSp (item.map fun kv => pyStr kv.2)).data = true :=
    subIn_joinSp hv
  have hall : subIn (pyStr v).data (bseAllText item).data = true := by
    have hEq : (bseAllText item).data
        = (pyStr (getChain item bsePeriodKeys (.str "")) ++ " ").data
          ++ (joinSp (item.map fun kv => pyStr kv.2)).data := by
      show ((pyStr (getChain item bsePeriodKeys (.str "")) ++ " ")
          ++ joinSp (item.map fun kv => pyStr kv.2)).data = _
      exact sdata_append _ _
    rw [hEq]
    exact subIn_append_left _ hj
  simp only [bseYearMatches, Bool.or_eq_true]
  cases hocc with
  | inl h => exact Or.inl (subIn_trans h hall)
  | inr h => exact Or.inr (subIn_trans h hall)

/-- C10 witnessed: a record whose *unrelated* `fileName` field contains
`2023` matches target year 2023 even though its period field does not. -/
theorem bse_year_match_any_field_witness :
    bseYearMatches
      [("year", JVal.str "2019-20"), ("fileName", JVal.str "notes_2023_final.pdf")]
      2023 = true :=
  bse_year_match_any_field
    [("year", JVal.str "2019-20"), ("fileName", JVal.str "notes_2023_final.pdf")]
    2023 "fileName" (JVal.str "notes_2023_final.pdf")
    (List.mem_cons_of_mem _ (List.mem_cons_self _ _))
    (Or.inl (by decide))
